import Mathlib

/-!
Verification development for the PDF extraction comparison pipeline
(src/pdf_extraction_test): the result comparator (compare.py), the
extractor framework (extractors.py) and the PDF parser (parser.py),
shallowly embedded in Lean.  Real-number arithmetic of the source
(times, costs, scores, Python float) is modelled by the rationals.
Python optional values are modelled by Option, raised exceptions by
the error side of Except, and dictionaries by association lists kept
in insertion order.
-/

namespace PdfX

mutual

/-- JSON-like values, as produced by json.loads on an extractor
response: null, string, number, boolean, array, object.  Objects are
insertion-ordered association lists.  Numbers are modelled by Int
(the distinction among scalar payloads is irrelevant to every
operation embedded here). -/
inductive JsonValue where
  | null : JsonValue
  | str (s : String) : JsonValue
  | num (n : Int) : JsonValue
  | bool (b : Bool) : JsonValue
  | arr (items : JsonList) : JsonValue
  | obj (fields : JsonObj) : JsonValue
deriving DecidableEq

inductive JsonList where
  | nil : JsonList
  | cons (hd : JsonValue) (tl : JsonList) : JsonList
deriving DecidableEq

inductive JsonObj where
  | nil : JsonObj
  | cons (key : String) (val : JsonValue) (tl : JsonObj) : JsonObj
deriving DecidableEq

end

mutual

/-- Embeds ResultComparator._count_fields (compare.py lines 41-59).
A None value counts 0; for a dict, each value that is not None adds
a recursive count when it is itself a dict or a list and 1 otherwise;
for a list, each item adds its own recursive count; any other value
(a bare scalar) falls through with count 0. -/
def countFields : JsonValue → Nat
  | .null => 0
  | .str _ => 0
  | .num _ => 0
  | .bool _ => 0
  | .arr items => countFieldsList items
  | .obj fields => countFieldsObj fields

def countFieldsList : JsonList → Nat
  | .nil => 0
  | .cons hd tl => countFields hd + countFieldsList tl

def countFieldsObj : JsonObj → Nat
  | .nil => 0
  | .cons _ v tl =>
    (match v with
     | .null => 0
     | .arr items => countFieldsList items
     | .obj fields => countFieldsObj fields
     | .str _ => 1
     | .num _ => 1
     | .bool _ => 1) + countFieldsObj tl

end

mutual

/-- The field count as the claim words it: every non-null scalar leaf
counts 1 (wherever it occurs, top level and sequence elements
included), null counts 0, mappings and sequences sum their
members. -/
def claimCount : JsonValue → Nat
  | .null => 0
  | .str _ => 1
  | .num _ => 1
  | .bool _ => 1
  | .arr items => claimCountList items
  | .obj fields => claimCountObj fields

def claimCountList : JsonList → Nat
  | .nil => 0
  | .cons hd tl => claimCount hd + claimCountList tl

def claimCountObj : JsonObj → Nat
  | .nil => 0
  | .cons _ v tl => claimCount v + claimCountObj tl

end

mutual

/-- The amended recursive description: a non-null scalar counts 1
exactly when it occurs as the direct value of a mapping entry; a
scalar at the top level or as a sequence element contributes 0. -/
def amendedCount : JsonValue → Nat
  | .null => 0
  | .str _ => 0
  | .num _ => 0
  | .bool _ => 0
  | .arr items => amendedCountList items
  | .obj fields => amendedCountObj fields

def amendedCountList : JsonList → Nat
  | .nil => 0
  | .cons hd tl => amendedCount hd + amendedCountList tl

def amendedCountObj : JsonObj → Nat
  | .nil => 0
  | .cons _ v tl => amendedCountValue v + amendedCountObj tl

/-- Count of one mapping value: 1 for a non-null scalar, 0 for null,
recursive for compound values. -/
def amendedCountValue : JsonValue → Nat
  | .null => 0
  | .str _ => 1
  | .num _ => 1
  | .bool _ => 1
  | .arr items => amendedCountList items
  | .obj fields => amendedCountObj fields

end

mutual

theorem countFields_eq_amended : ∀ d : JsonValue, countFields d = amendedCount d
  | .null => rfl
  | .str _ => rfl
  | .num _ => rfl
  | .bool _ => rfl
  | .arr items => by
    simp only [countFields, amendedCount, countFieldsList_eq_amended items]
  | .obj fields => by
    simp only [countFields, amendedCount, countFieldsObj_eq_amended fields]

theorem countFieldsList_eq_amended : ∀ l : JsonList, countFieldsList l = amendedCountList l
  | .nil => rfl
  | .cons hd tl => by
    simp only [countFieldsList, amendedCountList, countFields_eq_amended hd,
      countFieldsList_eq_amended tl]

theorem countFieldsObj_eq_amended : ∀ o : JsonObj, countFieldsObj o = amendedCountObj o
  | .nil => rfl
  | .cons _ .null tl => by
    simp only [countFieldsObj, amendedCountObj, amendedCountValue,
      countFieldsObj_eq_amended tl]
  | .cons _ (.str s) tl => by
    simp only [countFieldsObj, amendedCountObj, amendedCountValue,
      countFieldsObj_eq_amended tl]
  | .cons _ (.num n) tl => by
    simp only [countFieldsObj, amendedCountObj, amendedCountValue,
      countFieldsObj_eq_amended tl]
  | .cons _ (.bool b) tl => by
    simp only [countFieldsObj, amendedCountObj, amendedCountValue,
      countFieldsObj_eq_amended tl]
  | .cons _ (.arr items) tl => by
    simp only [countFieldsObj, amendedCountObj, amendedCountValue,
      countFieldsList_eq_amended items, countFieldsObj_eq_amended tl]
  | .cons _ (.obj fields) tl => by
    simp only [countFieldsObj, amendedCountObj, amendedCountValue,
      countFieldsObj_eq_amended fields, countFieldsObj_eq_amended tl]

end

/-- The example mapping of the claim: a maps to 1, b maps to null,
c maps to a nested mapping in which d maps to 2. -/
def exampleData : JsonValue :=
  .obj (.cons "a" (.num 1) (.cons "b" .null
    (.cons "c" (.obj (.cons "d" (.num 2) .nil)) .nil)))

/-- C2 counterexample: the comparator count of the bare scalar 5 is 0,
while the recursive definition stated by the claim gives a non-null
scalar leaf the count 1; likewise a one-element sequence holding the
scalar 1 counts 0, not 1. -/
theorem C2_count_fields_counterexample :
    countFields (.num 5) = 0 ∧ claimCount (.num 5) = 1 ∧
    countFields (.arr (.cons (.num 1) .nil)) = 0 ∧
    claimCount (.arr (.cons (.num 1) .nil)) = 1 := by
  decide

/-- C2 (amended): the comparator field count satisfies the recursive
definition in which a non-null scalar counts 1 exactly when it is the
direct value of a mapping entry, a scalar at the top level or inside a
sequence counts 0, null counts 0, a mapping sums the counts of its
non-null values and a sequence sums the counts of its elements; the
example mapping (a to 1, b to null, c to a mapping sending d to 2)
counts 2. -/
theorem C2_count_fields_amended :
    (∀ d : JsonValue, countFields d = amendedCount d) ∧
    countFields exampleData = 2 := by
  exact ⟨countFields_eq_amended, by decide⟩

/-- Python truthiness of a JSON value: None, empty string, zero,
False, empty list and empty dict are falsy. -/
def jsonTruthy : JsonValue → Bool
  | .null => false
  | .str s => s != ""
  | .num n => n != 0
  | .bool b => b
  | .arr .nil => false
  | .arr (.cons _ _) => true
  | .obj .nil => false
  | .obj (.cons _ _ _) => true

/-- Python truthiness of an optional JSON value (if result.extracted_data). -/
def optJsonTruthy : Option JsonValue → Bool
  | none => false
  | some v => jsonTruthy v

/-- Python truthiness of an optional string (if m.error): None and the
empty string are both falsy. -/
def errTruthy : Option String → Bool
  | none => false
  | some s => s != ""

/-- Embeds the ExtractionResult dataclass (extractors.py lines 31-45).
Defaults mirror the dataclass defaults; metadata is kept as an
insertion-ordered association list of strings. -/
structure ExtractionResult where
  model : String
  queryType : Int
  queryName : String
  extractedData : Option JsonValue := none
  rawResponse : String := ""
  promptTokens : Nat := 0
  completionTokens : Nat := 0
  totalTokens : Nat := 0
  extractionTime : ℚ := 0
  costUsd : ℚ := 0
  error : Option String := none
  metadata : List (String × String) := []
deriving DecidableEq

/-- Embeds ComparisonMetrics (compare.py lines 13-24). -/
structure ComparisonMetrics where
  model : String
  queryType : Int
  fieldsExtracted : Nat
  totalFieldsPossible : Nat
  completenessScore : ℚ
  extractionTime : ℚ
  totalTokens : Nat
  costUsd : ℚ
  error : Option String := none
deriving DecidableEq

/-- Embeds ResultComparator._get_expected_field_counts together with
the dict lookup expected_fields.get(result.query_type, 50)
(compare.py lines 61-72 and 88). -/
def expectedFieldCounts (queryType : Int) : Nat :=
  if queryType = 1 then 15
  else if queryType = 2 then 50
  else if queryType = 3 then 40
  else if queryType = 4 then 60
  else if queryType = 5 then 70
  else 50

theorem expectedFieldCounts_pos (queryType : Int) : 0 < expectedFieldCounts queryType := by
  unfold expectedFieldCounts
  split_ifs <;> norm_num

/-- One iteration of the loop body of ResultComparator.calculate_metrics
(compare.py lines 83-104): the field count is taken over
extracted_data when it is truthy and is 0 otherwise, the expected
total comes from the static table, and the completeness score is the
ratio capped at 1.0 when the total is positive and 0.0 otherwise. -/
def metricOfResult (r : ExtractionResult) : ComparisonMetrics :=
  let fieldsExtracted :=
    if optJsonTruthy r.extractedData then countFields (r.extractedData.getD .null) else 0
  let totalFields := expectedFieldCounts r.queryType
  { model := r.model
    queryType := r.queryType
    fieldsExtracted := fieldsExtracted
    totalFieldsPossible := totalFields
    completenessScore :=
      if 0 < totalFields then min ((fieldsExtracted : ℚ) / (totalFields : ℚ)) 1 else 0
    extractionTime := r.extractionTime
    totalTokens := r.totalTokens
    costUsd := r.costUsd
    error := r.error }

/-- Embeds ResultComparator.calculate_metrics (compare.py lines 74-106). -/
def calculateMetrics (results : List ExtractionResult) : List ComparisonMetrics :=
  results.map metricOfResult

theorem metricOfResult_score_eq (r : ExtractionResult) :
    (metricOfResult r).completenessScore =
      min (((metricOfResult r).fieldsExtracted : ℚ) / ((metricOfResult r).totalFieldsPossible : ℚ)) 1 := by
  simp only [metricOfResult, if_pos (expectedFieldCounts_pos r.queryType)]

/-- C3: for every result, the completeness score equals the extracted
field count divided by the expected field count of its query type,
capped at 1.0; the score always lies in the unit interval; a field
count strictly above the table entry gives exactly 1; the table sends
query types 1-5 to 15, 50, 40, 60, 70 and every other query type to
50; and a result carrying an error (which per the data model carries
no extracted data) scores 0. -/
theorem C3_calculate_metrics (rs : List ExtractionResult) (r : ExtractionResult) :
    calculateMetrics rs = rs.map metricOfResult ∧
    (metricOfResult r).totalFieldsPossible = expectedFieldCounts r.queryType ∧
    (metricOfResult r).completenessScore =
      min (((metricOfResult r).fieldsExtracted : ℚ) / ((metricOfResult r).totalFieldsPossible : ℚ)) 1 ∧
    0 ≤ (metricOfResult r).completenessScore ∧
    (metricOfResult r).completenessScore ≤ 1 ∧
    ((metricOfResult r).totalFieldsPossible < (metricOfResult r).fieldsExtracted →
      (metricOfResult r).completenessScore = 1) ∧
    (r.error.isSome → r.extractedData = none → (metricOfResult r).completenessScore = 0) ∧
    expectedFieldCounts 1 = 15 ∧ expectedFieldCounts 2 = 50 ∧ expectedFieldCounts 3 = 40 ∧
    expectedFieldCounts 4 = 60 ∧ expectedFieldCounts 5 = 70 ∧
    (∀ q : Int, q ∉ ([1, 2, 3, 4, 5] : List Int) → expectedFieldCounts q = 50) := by
  refine ⟨rfl, rfl, metricOfResult_score_eq r, ?_, ?_, ?_, ?_, rfl, rfl, rfl, rfl, rfl, ?_⟩
  · rw [metricOfResult_score_eq r]
    exact le_min (div_nonneg (Nat.cast_nonneg _) (Nat.cast_nonneg _)) zero_le_one
  · rw [metricOfResult_score_eq r]
    exact min_le_right _ _
  · intro h
    rw [metricOfResult_score_eq r, min_eq_right]
    have hpos : (0 : ℚ) < ((metricOfResult r).totalFieldsPossible : ℚ) := by
      have := expectedFieldCounts_pos r.queryType
      simp only [metricOfResult]
      exact_mod_cast this
    rw [le_div_iff₀ hpos, one_mul]
    exact_mod_cast Nat.le_of_lt h
  · intro _ hdata
    simp [metricOfResult, hdata, optJsonTruthy]
  · intro q hq
    simp only [List.mem_cons, List.not_mem_nil, or_false, not_or] at hq
    obtain ⟨h1, h2, h3, h4, h5⟩ := hq
    simp [expectedFieldCounts, h1, h2, h3, h4, h5]

/-- A concrete timeout result, as the Claude extractor failure path
builds it. -/
def sampleTimeoutResult : ExtractionResult :=
  { model := "claude-haiku", queryType := 1, queryName := "Basic",
    extractionTime := 1/2, error := some "Timeout" }

/-- C3 witness: a concrete timeout result scores 0 and an unlisted
query type falls back to the expected count 50. -/
theorem C3_calculate_metrics_witness :
    (metricOfResult sampleTimeoutResult).completenessScore = 0 ∧
    expectedFieldCounts 7 = 50 := by
  refine ⟨(C3_calculate_metrics [] sampleTimeoutResult).2.2.2.2.2.2.1 (by decide) rfl, ?_⟩
  exact (C3_calculate_metrics [] sampleTimeoutResult).2.2.2.2.2.2.2.2.2.2.2.2 7 (by decide)

/-- Python substring containment (pat in s): the character sequence of
pat occurs contiguously inside the character sequence of s. -/
def strContains (s pat : String) : Bool := decide (pat.data <:+: s.data)

/-- Python str.lower, modelled as the character-wise lowercase map
over the character sequence. -/
def strLower (s : String) : String := String.mk (s.data.map Char.toLower)

/-- The static pricing table of BaseExtractor._calculate_cost
(extractors.py lines 119-123): dollars per million input and output
tokens for each backend family. -/
def costPricing : List (String × (ℚ × ℚ)) :=
  [("claude-sonnet", (3, 15)), ("claude-haiku", (1/4, 5/4)), ("gpt-4", (10, 30))]

/-- The model-category dispatch of BaseExtractor._calculate_cost
(extractors.py lines 126-132): substring tests on the lowercased
model identifier. -/
def modelCategory (model : String) : Option String :=
  let m := strLower model
  if strContains m "sonnet" then some "claude-sonnet"
  else if strContains m "haiku" then some "claude-haiku"
  else if strContains m "gpt-4" || strContains m "gpt4" then some "gpt-4"
  else none

/-- Rounding to 6 decimal places, as round(cost, 6) does.  Mathlib
round sends ties upward while Python sends ties to the even digit;
the two agree everywhere except at exact half-microdollar ties, and
every statement below uses this same rounding on both sides. -/
def round6 (x : ℚ) : ℚ := (round (x * 1000000) : ℤ) / 1000000

/-- Embeds BaseExtractor._calculate_cost (extractors.py lines
106-140): price lookup by model category, the per-million-token
formula rounded to 6 decimals, and 0.0 for an unknown family. -/
def calculateCost (promptTokens completionTokens : Nat) (model : String) : ℚ :=
  match modelCategory model with
  | some modelKey =>
    match costPricing.lookup modelKey with
    | some (inputPrice, outputPrice) =>
      round6 ((promptTokens : ℚ) / 1000000 * inputPrice +
        (completionTokens : ℚ) / 1000000 * outputPrice)
    | none => 0
  | none => 0

/-- C5: whenever the model identifier resolves to a backend family
with prices (ip, op), the cost is exactly
round6(prompt/1e6 * ip + completion/1e6 * op); an identifier matching
no family costs 0.0; zero prompt and completion tokens cost exactly
0.0 whatever the identifier; and the table prices sonnet at (3, 15),
haiku at (0.25, 1.25) and gpt-4 at (10, 30) dollars per million
tokens. -/
theorem C5_calculate_cost (model : String) (p c : Nat) :
    (∀ k ip op, modelCategory model = some k → costPricing.lookup k = some (ip, op) →
      calculateCost p c model =
        round6 ((p : ℚ) / 1000000 * ip + (c : ℚ) / 1000000 * op)) ∧
    (modelCategory model = none → calculateCost p c model = 0) ∧
    calculateCost 0 0 model = 0 ∧
    costPricing.lookup "claude-sonnet" = some (3, 15) ∧
    costPricing.lookup "claude-haiku" = some (1/4, 5/4) ∧
    costPricing.lookup "gpt-4" = some (10, 30) := by
  refine ⟨?_, ?_, ?_, rfl, rfl, rfl⟩
  · intro k ip op h1 h2
    simp [calculateCost, h1, h2]
  · intro h
    simp [calculateCost, h]
  · cases hm : modelCategory model with
    | none => simp [calculateCost, hm]
    | some k =>
      cases hl : costPricing.lookup k with
      | none => simp [calculateCost, hm, hl]
      | some pr =>
        obtain ⟨ip, op⟩ := pr
        simp [calculateCost, hm, hl, round6]

/-- C5 witness: a dated sonnet identifier resolves to the sonnet
family and 1000 input plus 1000 output tokens cost 0.018 dollars,
while an unrelated identifier costs 0. -/
theorem C5_calculate_cost_witness :
    calculateCost 1000 1000 "claude-sonnet-4-20250514" =
      round6 ((1000 : ℚ) / 1000000 * 3 + (1000 : ℚ) / 1000000 * 15) ∧
    calculateCost 5 7 "mistral-large" = 0 := by
  constructor
  · exact (C5_calculate_cost "claude-sonnet-4-20250514" 1000 1000).1
      "claude-sonnet" 3 15 (by decide) (by decide)
  · exact (C5_calculate_cost "mistral-large" 5 7).2.1 (by decide)

/-- Split of a character sequence at every occurrence of a separator
character, as Python str.split does for a one-character separator;
the accumulator holds the current segment reversed. -/
def splitOnCharAux (c : Char) : List Char → List Char → List (List Char)
  | [], acc => [acc.reverse]
  | x :: xs, acc =>
    if x = c then acc.reverse :: splitOnCharAux c xs []
    else splitOnCharAux c xs (x :: acc)

/-- The normalized model key of generate_summary_stats (compare.py
line 145): the last hyphen-delimited segment of the model identifier
when a hyphen occurs in it, the whole identifier otherwise. -/
def modelKey (model : String) : String :=
  if strContains model "-" then
    String.mk ((splitOnCharAux '-' model.data []).getLastD [])
  else model

/-- One summary group entry (the inner dict of compare.py lines
155-162). -/
structure SummaryEntry where
  avgCompleteness : ℚ
  avgTime : ℚ
  totalTokens : Nat
  totalCost : ℚ
  successfulExtractions : Nat
  failedExtractions : Nat
deriving DecidableEq

/-- First-encounter-order deduplication of a key sequence: the
iteration order of an insertion-ordered dict built by appending. -/
def dedupFirstAux (seen : List String) : List String → List String
  | [] => []
  | x :: xs =>
    if x ∈ seen then dedupFirstAux seen xs
    else x :: dedupFirstAux (x :: seen) xs

/-- The metrics grouped under one normalized model key (the by_model
dict entry of compare.py lines 143-148). -/
def summaryGroup (ms : List ComparisonMetrics) (k : String) : List ComparisonMetrics :=
  ms.filter (fun m => modelKey m.model == k)

/-- The error-free members of one summary group (the successful list
of compare.py line 152, whose test is Python truthiness of the error
field). -/
def successMetrics (ms : List ComparisonMetrics) (k : String) : List ComparisonMetrics :=
  (summaryGroup ms k).filter (fun m => !(errTruthy m.error))

/-- The summary entry built for one model key, or none when the group
has no successful member (compare.py lines 151-162). -/
def summaryEntryFor (ms : List ComparisonMetrics) (k : String) :
    Option (String × SummaryEntry) :=
  if (successMetrics ms k).isEmpty then none
  else some (k,
    { avgCompleteness :=
        ((successMetrics ms k).map (fun m => m.completenessScore)).sum /
          ((successMetrics ms k).length : ℚ)
      avgTime :=
        ((successMetrics ms k).map (fun m => m.extractionTime)).sum /
          ((successMetrics ms k).length : ℚ)
      totalTokens := ((successMetrics ms k).map (fun m => m.totalTokens)).sum
      totalCost := ((successMetrics ms k).map (fun m => m.costUsd)).sum
      successfulExtractions := (successMetrics ms k).length
      failedExtractions := (summaryGroup ms k).length - (successMetrics ms k).length })

/-- Embeds ResultComparator.generate_summary_stats (compare.py lines
131-164): metrics are grouped by normalized model key in
first-encounter order and each group with at least one successful
member yields one entry. -/
def generateSummaryStats (results : List ExtractionResult) : List (String × SummaryEntry) :=
  (dedupFirstAux [] ((calculateMetrics results).map (fun m => modelKey m.model))).filterMap
    (summaryEntryFor (calculateMetrics results))

theorem mem_dedupFirstAux (l : List String) (seen : List String) (x : String)
    (hx : x ∈ l) (hseen : x ∉ seen) : x ∈ dedupFirstAux seen l := by
  induction l generalizing seen with
  | nil => cases hx
  | cons a as ih =>
    unfold dedupFirstAux
    rcases List.mem_cons.mp hx with rfl | hx2
    · rw [if_neg hseen]
      exact List.mem_cons_self _ _
    · by_cases ha : a ∈ seen
      · rw [if_pos ha]
        exact ih seen hx2 hseen
      · rw [if_neg ha]
        by_cases hxa : x = a
        · subst hxa
          exact List.mem_cons_self _ _
        · refine List.mem_cons_of_mem _ (ih (a :: seen) hx2 ?_)
          simp [hxa, hseen]

/-- A result whose error field is set to the empty string, as
add_results accepts it. -/
def emptyErrorResult : ExtractionResult :=
  { model := "claude-haiku", queryType := 1, queryName := "Basic", error := some "" }

/-- C4 counterexample: a result whose error is set (to the empty
string) is NOT excluded from the group averages and is NOT counted in
the failure tally, because the source tests Python truthiness of the
error, not presence; for the same reason its all-error group is not
omitted from the summary.  The single-result group haiku appears with
1 successful and 0 failed extractions although its only result has
error set. -/
theorem C4_summary_stats_counterexample :
    emptyErrorResult.error.isSome = true ∧
    (generateSummaryStats [emptyErrorResult]).map
        (fun p => (p.1, p.2.successfulExtractions, p.2.failedExtractions)) =
      [("haiku", 1, 0)] := by
  constructor
  · rfl
  · decide

/-- C4 (amended): in generate_summary_stats, for every model group the
averages and totals are computed only over the members whose error is
absent or empty (Python falsy); a member with a non-empty error is
excluded from them but counted in the failure tally
(group size minus success count); a group in which every member has a
non-empty error is omitted from the summary; and every group with at
least one falsy-error member does appear. -/
theorem C4_summary_stats_amended :
    (∀ rs k e, (k, e) ∈ generateSummaryStats rs →
      successMetrics (calculateMetrics rs) k ≠ [] ∧
      e.avgCompleteness =
        ((successMetrics (calculateMetrics rs) k).map (fun m => m.completenessScore)).sum /
          ((successMetrics (calculateMetrics rs) k).length : ℚ) ∧
      e.avgTime =
        ((successMetrics (calculateMetrics rs) k).map (fun m => m.extractionTime)).sum /
          ((successMetrics (calculateMetrics rs) k).length : ℚ) ∧
      e.totalTokens = ((successMetrics (calculateMetrics rs) k).map (fun m => m.totalTokens)).sum ∧
      e.totalCost = ((successMetrics (calculateMetrics rs) k).map (fun m => m.costUsd)).sum ∧
      e.successfulExtractions = (successMetrics (calculateMetrics rs) k).length ∧
      e.failedExtractions =
        (summaryGroup (calculateMetrics rs) k).length -
          (successMetrics (calculateMetrics rs) k).length) ∧
    (∀ rs k, (∀ m ∈ calculateMetrics rs, modelKey m.model = k → errTruthy m.error = true) →
      ∀ e, (k, e) ∉ generateSummaryStats rs) ∧
    (∀ rs m, m ∈ calculateMetrics rs → errTruthy m.error = false →
      ∃ p ∈ generateSummaryStats rs, p.1 = modelKey m.model) := by
  have hmem : ∀ rs k e, (k, e) ∈ generateSummaryStats rs →
      summaryEntryFor (calculateMetrics rs) k = some (k, e) := by
    intro rs k e h
    unfold generateSummaryStats at h
    obtain ⟨k0, _, hk0⟩ := List.mem_filterMap.mp h
    have hkeq : k0 = k := by
      unfold summaryEntryFor at hk0
      by_cases hempty : (successMetrics (calculateMetrics rs) k0).isEmpty
      · rw [if_pos hempty] at hk0
        cases hk0
      · rw [if_neg hempty] at hk0
        exact congrArg Prod.fst (Option.some.inj hk0)
    rw [hkeq] at hk0
    exact hk0
  refine ⟨?_, ?_, ?_⟩
  · intro rs k e h
    have h1 := hmem rs k e h
    unfold summaryEntryFor at h1
    by_cases hempty : (successMetrics (calculateMetrics rs) k).isEmpty
    · rw [if_pos hempty] at h1
      cases h1
    · rw [if_neg hempty] at h1
      have he := (Prod.mk.injEq _ _ _ _).mp (Option.some.inj h1) |>.2
      subst he
      refine ⟨by simpa [List.isEmpty_iff] using hempty, rfl, rfl, rfl, rfl, rfl, rfl⟩
  · intro rs k hall e hmem2
    have h1 := hmem rs k e hmem2
    unfold summaryEntryFor at h1
    by_cases hempty : (successMetrics (calculateMetrics rs) k).isEmpty
    · rw [if_pos hempty] at h1
      cases h1
    · rw [if_neg hempty] at h1
      have hex : ∃ m, m ∈ successMetrics (calculateMetrics rs) k :=
        List.exists_mem_of_ne_nil _ (by simpa [List.isEmpty_iff] using hempty)
      obtain ⟨m, hm⟩ := hex
      unfold successMetrics summaryGroup at hm
      have hm1 := List.mem_filter.mp hm
      have hm2 := List.mem_filter.mp hm1.1
      have hkey : modelKey m.model = k := by
        have := hm2.2
        simpa using this
      have htruthy : errTruthy m.error = false := by
        have := hm1.2
        simpa using this
      have := hall m hm2.1 hkey
      rw [this] at htruthy
      cases htruthy
  · intro rs m hm htruthy
    have hkmem : modelKey m.model ∈
        dedupFirstAux [] ((calculateMetrics rs).map (fun m => modelKey m.model)) := by
      refine mem_dedupFirstAux _ [] _ ?_ (List.not_mem_nil _)
      exact List.mem_map.mpr ⟨m, hm, rfl⟩
    have hsuccne : (successMetrics (calculateMetrics rs) (modelKey m.model)).isEmpty = false := by
      have hmm : m ∈ successMetrics (calculateMetrics rs) (modelKey m.model) := by
        unfold successMetrics summaryGroup
        refine List.mem_filter.mpr ⟨List.mem_filter.mpr ⟨hm, by simp⟩, by simp [htruthy]⟩
      rcases hne : successMetrics (calculateMetrics rs) (modelKey m.model) with _ | _
      · rw [hne] at hmm
        cases hmm
      · rfl
    cases hopt : summaryEntryFor (calculateMetrics rs) (modelKey m.model) with
    | none =>
      exfalso
      unfold summaryEntryFor at hopt
      rw [hsuccne] at hopt
      simp at hopt
    | some pr =>
      have hfst : pr.1 = modelKey m.model := by
        unfold summaryEntryFor at hopt
        rw [hsuccne] at hopt
        simp only [Bool.false_eq_true, if_false, Option.some.injEq] at hopt
        rw [← hopt]
      refine ⟨pr, ?_, hfst⟩
      unfold generateSummaryStats
      exact List.mem_filterMap.mpr ⟨modelKey m.model, hkmem, hopt⟩

/-- A concrete successful extraction result. -/
def sampleSuccessResult : ExtractionResult :=
  { model := "claude-sonnet", queryType := 1, queryName := "Basic",
    extractedData := some exampleData, rawResponse := "", promptTokens := 1000,
    completionTokens := 500, totalTokens := 1500, extractionTime := 5, costUsd := 1/20 }

/-- The all-zero summary entry. -/
def zeroSummaryEntry : SummaryEntry :=
  { avgCompleteness := 0, avgTime := 0, totalTokens := 0, totalCost := 0,
    successfulExtractions := 0, failedExtractions := 0 }

/-- C4 witness: a group consisting of one non-empty-error timeout
result is omitted from the summary, and a group holding a successful
result does appear. -/
theorem C4_summary_stats_witness :
    ("haiku", zeroSummaryEntry) ∉ generateSummaryStats [sampleTimeoutResult] ∧
    generateSummaryStats [sampleSuccessResult] ≠ [] := by
  constructor
  · exact C4_summary_stats_amended.2.1 [sampleTimeoutResult] "haiku" (by decide) zeroSummaryEntry
  · obtain ⟨p, hp, _⟩ := C4_summary_stats_amended.2.2 [sampleSuccessResult]
      (metricOfResult sampleSuccessResult) (List.mem_singleton.mpr rfl) (by decide)
    exact List.ne_nil_of_mem hp

/-- Python max(l, key=f): none on the empty sequence (where CPython
raises ValueError), otherwise the first element attaining the maximal
key, kept by a left fold that replaces the current best only on a
strictly greater key. -/
def pyMaxBy {α : Type} (key : α → ℚ) : List α → Option α
  | [] => none
  | x :: xs => some (xs.foldl (fun best m => if key best < key m then m else best) x)

/-- Python min(l, key=f), mirror image of pyMaxBy. -/
def pyMinBy {α : Type} (key : α → ℚ) : List α → Option α
  | [] => none
  | x :: xs => some (xs.foldl (fun best m => if key m < key best then m else best) x)

theorem pyMaxBy_spec {α : Type} (key : α → ℚ) (l : List α) (h : l ≠ []) :
    ∃ m, pyMaxBy key l = some m ∧ m ∈ l ∧ ∀ y ∈ l, key y ≤ key m := by
  have main : ∀ (xs : List α) (x : α),
      (xs.foldl (fun best m => if key best < key m then m else best) x) ∈ x :: xs ∧
      ∀ y ∈ x :: xs,
        key y ≤ key (xs.foldl (fun best m => if key best < key m then m else best) x) := by
    intro xs
    induction xs with
    | nil => simp
    | cons a as ih =>
      intro x
      have step := ih (if key x < key a then a else x)
      have hx : key x ≤ key (if key x < key a then a else x) := by
        by_cases hlt : key x < key a
        · rw [if_pos hlt]
          exact le_of_lt hlt
        · rw [if_neg hlt]
      have ha : key a ≤ key (if key x < key a then a else x) := by
        by_cases hlt : key x < key a
        · rw [if_pos hlt]
        · rw [if_neg hlt]
          exact le_of_not_lt hlt
      constructor
      · rw [List.foldl_cons]
        rcases List.mem_cons.mp step.1 with heq | hmem
        · rw [heq]
          by_cases hlt : key x < key a
          · rw [if_pos hlt]
            exact List.mem_cons_of_mem _ (List.mem_cons_self _ _)
          · rw [if_neg hlt]
            exact List.mem_cons_self _ _
        · exact List.mem_cons_of_mem _ (List.mem_cons_of_mem _ hmem)
      · intro y hy
        rw [List.foldl_cons]
        have htop := step.2 _ (List.mem_cons_self _ _)
        rcases List.mem_cons.mp hy with rfl | hy2
        · exact le_trans hx htop
        · rcases List.mem_cons.mp hy2 with rfl | hy3
          · exact le_trans ha htop
          · exact step.2 _ (List.mem_cons_of_mem _ hy3)
  cases l with
  | nil => exact absurd rfl h
  | cons x xs =>
    exact ⟨_, rfl, (main xs x).1, (main xs x).2⟩

theorem pyMinBy_eq_pyMaxBy_neg {α : Type} (key : α → ℚ) (l : List α) :
    pyMinBy key l = pyMaxBy (fun m => -(key m)) l := by
  cases l with
  | nil => rfl
  | cons x xs =>
    simp only [pyMinBy, pyMaxBy, Option.some.injEq]
    congr 1
    funext best m
    by_cases hlt : key m < key best
    · rw [if_pos hlt, if_pos (neg_lt_neg hlt)]
    · rw [if_neg hlt, if_neg (fun hc => hlt (by linarith))]

theorem pyMinBy_spec {α : Type} (key : α → ℚ) (l : List α) (h : l ≠ []) :
    ∃ m, pyMinBy key l = some m ∧ m ∈ l ∧ ∀ y ∈ l, key m ≤ key y := by
  obtain ⟨m, hm, hmem, hmax⟩ := pyMaxBy_spec (fun m => -(key m)) l h
  refine ⟨m, (pyMinBy_eq_pyMaxBy_neg key l).trans hm, hmem, fun y hy => ?_⟩
  have := hmax y hy
  linarith

/-- One row of the metrics projection list built by
compare_single_query_results (compare.py lines 342-351). -/
structure MetricsRow where
  model : String
  completeness : ℚ
  time : ℚ
  cost : ℚ
  tokens : Nat
deriving DecidableEq

/-- The comparison dictionary returned by compare_single_query_results
(compare.py lines 339-355). -/
structure SingleQueryComparison where
  queryType : Int
  modelsCompared : Nat
  metricsRows : List MetricsRow
  bestByCompleteness : String
  bestByCost : String
  bestBySpeed : String
deriving DecidableEq

/-- Embeds compare_single_query_results (compare.py lines 321-355).
The none branch models the ValueError that Python max and min raise
when the accumulated metrics sequence is empty; every other input
produces the comparison dictionary with the three superlatives taken
by first-encountered maximal completeness, minimal cost and minimal
time. -/
def compareSingleQueryResults (results : List ExtractionResult) (queryType : Int) :
    Option SingleQueryComparison :=
  match pyMaxBy (fun m => m.completenessScore) (calculateMetrics results),
        pyMinBy (fun m => m.costUsd) (calculateMetrics results),
        pyMinBy (fun m => m.extractionTime) (calculateMetrics results) with
  | some a, some b, some c =>
    some { queryType := queryType
           modelsCompared := results.length
           metricsRows := (calculateMetrics results).map (fun m =>
             { model := m.model, completeness := m.completenessScore,
               time := m.extractionTime, cost := m.costUsd, tokens := m.totalTokens })
           bestByCompleteness := a.model
           bestByCost := b.model
           bestBySpeed := c.model }
  | _, _, _ => none

/-- C10: compare_single_query_results is partial at its public
interface: the empty results list yields the exceptional branch (the
Python ValueError of max on an empty sequence, modelled by none)
instead of a comparison dictionary, while every non-empty results
list yields a dictionary whose best_by_completeness is the model of a
metrics entry of maximal completeness score, best_by_cost the model
of an entry of minimal cost, and best_by_speed the model of an entry
of minimal time. -/
theorem C10_compare_single_query :
    (∀ q : Int, compareSingleQueryResults [] q = none) ∧
    (∀ (rs : List ExtractionResult) (q : Int), rs ≠ [] →
      ∃ d, compareSingleQueryResults rs q = some d ∧
        d.queryType = q ∧ d.modelsCompared = rs.length ∧
        (∃ m ∈ calculateMetrics rs, d.bestByCompleteness = m.model ∧
          ∀ y ∈ calculateMetrics rs, y.completenessScore ≤ m.completenessScore) ∧
        (∃ m ∈ calculateMetrics rs, d.bestByCost = m.model ∧
          ∀ y ∈ calculateMetrics rs, m.costUsd ≤ y.costUsd) ∧
        (∃ m ∈ calculateMetrics rs, d.bestBySpeed = m.model ∧
          ∀ y ∈ calculateMetrics rs, m.extractionTime ≤ y.extractionTime)) := by
  constructor
  · intro q
    rfl
  · intro rs q hne
    have hne2 : calculateMetrics rs ≠ [] := by
      cases rs with
      | nil => exact absurd rfl hne
      | cons r rs2 => exact List.cons_ne_nil _ _
    obtain ⟨a, hA, haMem, haMax⟩ := pyMaxBy_spec (fun m => m.completenessScore) _ hne2
    obtain ⟨b, hB, hbMem, hbMin⟩ := pyMinBy_spec (fun m => m.costUsd) _ hne2
    obtain ⟨c, hC, hcMem, hcMin⟩ := pyMinBy_spec (fun m => m.extractionTime) _ hne2
    refine ⟨{ queryType := q
              modelsCompared := rs.length
              metricsRows := (calculateMetrics rs).map (fun m =>
                { model := m.model, completeness := m.completenessScore,
                  time := m.extractionTime, cost := m.costUsd, tokens := m.totalTokens })
              bestByCompleteness := a.model
              bestByCost := b.model
              bestBySpeed := c.model },
      ?_, rfl, rfl, ⟨a, haMem, rfl, haMax⟩, ⟨b, hbMem, rfl, hbMin⟩,
      ⟨c, hcMem, rfl, hcMin⟩⟩
    unfold compareSingleQueryResults
    rw [hA, hB, hC]

/-- C10 witness: the empty list is rejected and a concrete two-result
list yields a comparison dictionary. -/
theorem C10_compare_single_query_witness :
    compareSingleQueryResults [] 3 = none ∧
    compareSingleQueryResults [sampleSuccessResult, sampleTimeoutResult] 1 ≠ none := by
  constructor
  · exact C10_compare_single_query.1 3
  · obtain ⟨d, hd, _⟩ := C10_compare_single_query.2
      [sampleSuccessResult, sampleTimeoutResult] 1 (by decide)
    rw [hd]
    simp

/-- Result of one RateLimiter.acquire step: how long the caller slept
and the timestamp recorded as last_request_time. -/
structure AcquireStep where
  waitTime : ℚ
  newLastRequestTime : ℚ
deriving DecidableEq

/-- The minimum inter-call interval 60.0 / requests_per_minute
(extractors.py line 72, parser.py line 56). -/
def minInterval (requestsPerMinute : ℚ) : ℚ := 60 / requestsPerMinute

/-- Embeds the body of RateLimiter.acquire (extractors.py lines 76-85,
parser.py lines 60-69), which runs entirely inside the asyncio lock of
the limiter instance, so the whole check-and-record section is one
atomic step and consecutive granted calls observe one another in
sequence.  The argument now is the first time.time() reading and
tAfter is the reading recorded after the conditional sleep; the clock
discipline (tAfter is at least now plus the slept duration) enters the
theorem below as a hypothesis. -/
def acquire (requestsPerMinute lastRequestTime now tAfter : ℚ) : AcquireStep :=
  if now - lastRequestTime < minInterval requestsPerMinute then
    { waitTime := minInterval requestsPerMinute - (now - lastRequestTime)
      newLastRequestTime := tAfter }
  else
    { waitTime := 0
      newLastRequestTime := tAfter }

/-- C8: for every positive requests_per_minute R, an acquire step that
sleeps its computed wait and then records the clock cannot record a
time less than 60 / R after the previously recorded granted call, and
it records exactly the post-sleep reading: so two consecutive granted
calls on the same limiter instance are separated by at least 60 / R
seconds.  Mutual exclusion of the check-and-record section is the
asyncio lock of the instance, which the model reflects by making the
step atomic. -/
theorem C8_rate_limiter_spacing (R lastRequestTime now tAfter : ℚ)
    (hR : 0 < R)
    (hclock : now + (acquire R lastRequestTime now tAfter).waitTime ≤ tAfter) :
    60 / R ≤ (acquire R lastRequestTime now tAfter).newLastRequestTime - lastRequestTime ∧
    (acquire R lastRequestTime now tAfter).newLastRequestTime = tAfter := by
  unfold acquire minInterval at hclock ⊢
  split_ifs at hclock ⊢ with h
  · exact ⟨by simp only at hclock ⊢; linarith, rfl⟩
  · have h2 : 60 / R ≤ now - lastRequestTime := le_of_not_lt h
    exact ⟨by simp only at hclock ⊢; linarith, rfl⟩

/-- C8 witness: with 60 requests per minute, a previous grant at time
0 and a second call arriving at time 0.5, the recorded grant time 1
is at least one second after the previous grant. -/
theorem C8_rate_limiter_spacing_witness :
    (60 : ℚ) / 60 ≤ (acquire 60 0 (1/2) 1).newLastRequestTime - 0 ∧
    (acquire 60 0 (1/2) 1).newLastRequestTime = 1 :=
  C8_rate_limiter_spacing 60 0 (1/2) 1 (by norm_num) (by norm_num [acquire, minInterval])

/-- PDF parsing strategies (parser.py lines 30-35). -/
inductive ParsingStrategy where
  | hiRes
  | fast
  | ocrOnly
  | auto
deriving DecidableEq

/-- One element dict built from an API response element (parser.py
lines 172-177): the type tag (None when the response element lacks
one) and the text (empty when missing). -/
structure ElementDict where
  elemType : Option String
  elemText : String
deriving DecidableEq

/-- Embeds the ParseResult dataclass (parser.py lines 38-48), defaults
mirroring the dataclass defaults.  The metadata dict is modelled as
an association list of named counts. -/
structure ParseResult where
  filePath : String
  strategy : ParsingStrategy
  text : String
  elements : Option (List ElementDict) := none
  metadata : Option (List (String × Nat)) := none
  parseTime : ℚ := 0
  tokenCount : Option Nat := none
  error : Option String := none
deriving DecidableEq

/-- One element object returned by the local partition_pdf call: its
class name and its string form. -/
structure LocalElement where
  className : String
  strForm : String
deriving DecidableEq

/-- Outcome of the remote partition request of _parse_with_api for one
file: the response elements and the elapsed request time, or the
description of the exception the attempt raised inside the try
block (timeout, transport error and every other failure). -/
inductive ApiOutcome where
  | success (elements : List ElementDict) (elapsed : ℚ)
  | failure (msg : String) (elapsed : ℚ)

/-- Outcome of the local partition_pdf call of _parse_local for one
file: the returned element objects, a missing offline library
(ImportError), or the description of another raised exception. -/
inductive LocalOutcome where
  | success (elements : List LocalElement) (elapsed : ℚ)
  | importUnavailable (elapsed : ℚ)
  | failure (msg : String) (elapsed : ℚ)

/-- The environment a parse call runs against: which files exist,
whether the Unstructured client was initialized, the file sizes, and
the per-file outcomes of the remote and local parsing backends. -/
structure ParserWorld where
  fileExists : String → Bool
  clientAvailable : Bool
  fileSize : String → Nat
  apiOutcome : String → ApiOutcome
  localOutcome : String → LocalOutcome

/-- Python truthiness of str(elem).strip(): true exactly when some
character is not whitespace. -/
def strStripTruthy (s : String) : Bool := s.data.any (fun c => !c.isWhitespace)

/-- The text-bearing parts collected from API response elements
(parser.py lines 179-180): the texts of the elements whose text is
non-empty, in document order. -/
def apiTextParts (elements : List ElementDict) : List String :=
  (elements.filter (fun e => e.elemText != "")).map (fun e => e.elemText)

/-- The text parts collected from local elements (parser.py line 250):
string forms that are non-blank after stripping, in document order. -/
def localTextParts (elements : List LocalElement) : List String :=
  (elements.filter (fun e => strStripTruthy e.strForm)).map (fun e => e.strForm)

/-- The blank-line join of parser.py lines 182 and 251. -/
def joinParts (parts : List String) : String := String.intercalate "\n\n" parts

/-- Embeds PDFParser._parse_with_api (parser.py lines 107-213).  The
RuntimeError raised before the try block when the client is missing
propagates to the caller (the error side); every outcome of the
request itself is caught by the except clause and becomes an
error-bearing ParseResult.  The token count is len(text) // 4.  The
tenacity decorator of lines 107-112 never observes an exception from
the try block and is therefore not part of the observable behavior
modelled by apiOutcome. -/
def parseWithApiEx (w : ParserWorld) (filePath : String) (strategy : ParsingStrategy) :
    Except String ParseResult :=
  if !w.clientAvailable then
    .error "Unstructured API client not initialized"
  else
    match w.apiOutcome filePath with
    | .success elements elapsed =>
      .ok { filePath := filePath
            strategy := strategy
            text := joinParts (apiTextParts elements)
            elements := some elements
            metadata := some [("num_elements", elements.length),
              ("file_size", w.fileSize filePath)]
            parseTime := elapsed
            tokenCount := some ((joinParts (apiTextParts elements)).length / 4) }
    | .failure msg elapsed =>
      .ok { filePath := filePath
            strategy := strategy
            text := ""
            parseTime := elapsed
            error := some msg }

/-- Embeds PDFParser._parse_local (parser.py lines 215-288). -/
def parseLocal (w : ParserWorld) (filePath : String) (strategy : ParsingStrategy) : ParseResult :=
  match w.localOutcome filePath with
  | .success elements elapsed =>
    { filePath := filePath
      strategy := strategy
      text := joinParts (localTextParts elements)
      elements := some (elements.map (fun e =>
        { elemType := some e.className, elemText := e.strForm }))
      metadata := some [("num_elements", elements.length)]
      parseTime := elapsed
      tokenCount := some ((joinParts (localTextParts elements)).length / 4) }
  | .importUnavailable elapsed =>
    { filePath := filePath
      strategy := strategy
      text := ""
      parseTime := elapsed
      error := some "Local parsing requires: pip install unstructured[pdf]" }
  | .failure msg elapsed =>
    { filePath := filePath
      strategy := strategy
      text := ""
      parseTime := elapsed
      error := some msg }

/-- Embeds PDFParser.parse (parser.py lines 290-318): a missing file
gives an error-bearing result without touching any backend; the API
route is taken only when requested and the client exists, otherwise
the local route. -/
def parse (w : ParserWorld) (filePath : String) (strategy : ParsingStrategy) (useApi : Bool) :
    Except String ParseResult :=
  if !w.fileExists filePath then
    .ok { filePath := filePath
          strategy := strategy
          text := ""
          error := some "File not found" }
  else if useApi && w.clientAvailable then
    parseWithApiEx w filePath strategy
  else
    .ok (parseLocal w filePath strategy)

/-- Embeds PDFParser.parse_batch (parser.py lines 320-363).  The
asyncio.gather call with return_exceptions=True yields, in the input
file order and independent of completion order, one outcome per task:
runTask gives the outcome of the per-file task, a ParseResult or the
description of the exception the task raised; the loop of lines
348-361 converts each raised exception into a synthesized
error-bearing ParseResult for its own slot. -/
def parseBatch (runTask : String → Except String ParseResult)
    (filePaths : List String) (strategy : ParsingStrategy) : List ParseResult :=
  filePaths.map (fun p =>
    match runTask p with
    | .ok r => r
    | .error e =>
      { filePath := p
        strategy := strategy
        text := ""
        error := some e })

/-- C6: parse_batch returns one slot per input file, in the input
order and independent of completion order; each slot is determined by
that file task alone — the ParseResult the task returned, or, when
the task raised, a synthesized ParseResult for that same file with
the exception description as its error and empty text — so one file
raising never aborts or alters any sibling slot. -/
theorem C6_parse_batch (runTask : String → Except String ParseResult)
    (filePaths : List String) (strategy : ParsingStrategy) :
    (parseBatch runTask filePaths strategy).length = filePaths.length ∧
    (∀ i : Nat, (parseBatch runTask filePaths strategy).get? i =
      (filePaths.get? i).map (fun p =>
        match runTask p with
        | .ok r => r
        | .error e =>
          { filePath := p
            strategy := strategy
            text := ""
            error := some e })) ∧
    (∀ i p r, filePaths.get? i = some p → runTask p = .ok r →
      (parseBatch runTask filePaths strategy).get? i = some r) ∧
    (∀ i p e, filePaths.get? i = some p → runTask p = .error e →
      (parseBatch runTask filePaths strategy).get? i =
        some { filePath := p
               strategy := strategy
               text := ""
               elements := none
               metadata := none
               parseTime := 0
               tokenCount := none
               error := some e }) := by
  refine ⟨by simp [parseBatch], ?_, ?_, ?_⟩
  · intro i
    unfold parseBatch
    exact List.get?_map _ _ _
  · intro i p r h1 h2
    unfold parseBatch
    rw [List.get?_map, h1, Option.map_some', h2]
  · intro i p e h1 h2
    unfold parseBatch
    rw [List.get?_map, h1, Option.map_some', h2]

/-- The file task run for each slot of parse_batch: the parse call
itself (parser.py lines 340-342). -/
def parseTask (w : ParserWorld) (strategy : ParsingStrategy) (useApi : Bool)
    (filePath : String) : Except String ParseResult :=
  parse w filePath strategy useApi

/-- C7: parse never raises to its caller: every input resolves to an
ok ParseResult; a non-existent file yields a result with the
NotFound condition recorded in its error field rather than thrown;
and every failure path yields a result with error populated and
empty text. -/
theorem parseWithApiEx_emptyText (w : ParserWorld) (filePath : String)
    (strategy : ParsingStrategy) (hc : w.clientAvailable = true) :
    ∃ r, parseWithApiEx w filePath strategy = Except.ok r ∧
      (r.error.isSome = true → r.text = "") := by
  unfold parseWithApiEx
  rw [hc]
  cases hout : w.apiOutcome filePath with
  | success elements elapsed =>
    refine ⟨_, rfl, fun habs => ?_⟩
    simp at habs
  | failure msg elapsed =>
    exact ⟨_, rfl, fun _ => rfl⟩

theorem parseLocal_emptyText (w : ParserWorld) (filePath : String)
    (strategy : ParsingStrategy) :
    (parseLocal w filePath strategy).error.isSome = true →
      (parseLocal w filePath strategy).text = "" := by
  unfold parseLocal
  cases w.localOutcome filePath <;> simp

theorem C7_parse_never_raises (w : ParserWorld) (filePath : String)
    (strategy : ParsingStrategy) (useApi : Bool) :
    ∃ r, parse w filePath strategy useApi = Except.ok r ∧
      (w.fileExists filePath = false → r.error = some "File not found" ∧ r.text = "") ∧
      (r.error.isSome = true → r.text = "") := by
  unfold parse
  cases hex : w.fileExists filePath with
  | false =>
    exact ⟨_, rfl, fun _ => ⟨rfl, rfl⟩, fun _ => rfl⟩
  | true =>
    cases hu : useApi with
    | true =>
      cases hcl : w.clientAvailable with
      | true =>
        obtain ⟨r, hr, hsp⟩ := parseWithApiEx_emptyText w filePath strategy hcl
        exact ⟨r, hr, fun hfe => Bool.noConfusion hfe, hsp⟩
      | false =>
        exact ⟨_, rfl, fun hfe => Bool.noConfusion hfe,
          parseLocal_emptyText w filePath strategy⟩
    | false =>
      exact ⟨_, rfl, fun hfe => Bool.noConfusion hfe,
        parseLocal_emptyText w filePath strategy⟩

/-- The invariant of the claim: the error field is set exactly when
the text is empty and elements and token_count are both absent. -/
def parseResultInvariant (r : ParseResult) : Prop :=
  r.error.isSome ↔ (r.text = "" ∧ r.elements = none ∧ r.tokenCount = none)

/-- C9: every ParseResult the parser produces — by parse on any route
and by parse_batch over any per-file tasks whose own results satisfy
the invariant (as the parse tasks do by the first part) — satisfies
the biconditional: error set exactly when the text is empty and
elements and token_count are absent. -/
theorem C9_parse_result_invariant :
    (∀ w filePath strategy useApi r,
      parse w filePath strategy useApi = Except.ok r → parseResultInvariant r) ∧
    (∀ runTask filePaths strategy,
      (∀ p r, runTask p = Except.ok r → parseResultInvariant r) →
      ∀ r ∈ parseBatch runTask filePaths strategy, parseResultInvariant r) := by
  constructor
  · intro w filePath strategy useApi r hr
    unfold parse at hr
    cases hex : w.fileExists filePath with
    | false =>
      rw [hex] at hr
      simp only [Bool.not_false, if_true, Except.ok.injEq] at hr
      subst hr
      simp [parseResultInvariant]
    | true =>
      rw [hex] at hr
      simp only [Bool.not_true, Bool.false_eq_true, if_false] at hr
      by_cases happi : (useApi && w.clientAvailable) = true
      · rw [happi] at hr
        simp only [if_true] at hr
        unfold parseWithApiEx at hr
        have hc : w.clientAvailable = true := by
          have h2 := happi
          simp only [Bool.and_eq_true] at h2
          exact h2.2
        rw [hc] at hr
        simp only [Bool.not_true, Bool.false_eq_true, if_false] at hr
        cases hout : w.apiOutcome filePath with
        | success elements elapsed =>
          rw [hout] at hr
          simp only [Except.ok.injEq] at hr
          subst hr
          simp [parseResultInvariant]
        | failure msg elapsed =>
          rw [hout] at hr
          simp only [Except.ok.injEq] at hr
          subst hr
          simp [parseResultInvariant]
      · have happi2 : (useApi && w.clientAvailable) = false := by
          simpa using happi
        rw [happi2] at hr
        simp only [Bool.false_eq_true, if_false, Except.ok.injEq] at hr
        unfold parseLocal at hr
        cases hout : w.localOutcome filePath with
        | success elements elapsed =>
          rw [hout] at hr
          subst hr
          simp [parseResultInvariant]
        | importUnavailable elapsed =>
          rw [hout] at hr
          subst hr
          simp [parseResultInvariant]
        | failure msg elapsed =>
          rw [hout] at hr
          subst hr
          simp [parseResultInvariant]
  · intro runTask filePaths strategy htask r hr
    unfold parseBatch at hr
    obtain ⟨p, hp, hpr⟩ := List.mem_map.mp hr
    cases hrt : runTask p with
    | ok r0 =>
      rw [hrt] at hpr
      rw [← hpr]
      exact htask p r0 hrt
    | error e =>
      rw [hrt] at hpr
      rw [← hpr]
      simp [parseResultInvariant]

/-- A concrete environment: only report.pdf exists, the client is
initialized, and the remote request path fails with a timeout. -/
def sampleWorld : ParserWorld :=
  { fileExists := fun p => p == "report.pdf"
    clientAvailable := true
    fileSize := fun _ => 1024
    apiOutcome := fun _ => .failure "Request timeout" 3
    localOutcome := fun _ => .importUnavailable (1/10) }

/-- C7 witness: parsing a missing file returns (never raises) a result
carrying the NotFound error and empty text. -/
theorem C7_parse_never_raises_witness :
    (parse sampleWorld "missing.pdf" ParsingStrategy.hiRes true).toOption.map
        (fun r => (r.error, r.text)) = some (some "File not found", "") := by
  obtain ⟨r, hr, hnf, _⟩ :=
    C7_parse_never_raises sampleWorld "missing.pdf" ParsingStrategy.hiRes true
  obtain ⟨he, ht⟩ := hnf (by decide)
  rw [hr]
  simp [Except.toOption, he, ht]

/-- The ParseResult parse_batch synthesizes for a slot whose task
raised with description boom. -/
def synthBatchResult : ParseResult :=
  { filePath := "a.pdf", strategy := ParsingStrategy.hiRes, text := "", error := some "boom" }

/-- C9 witness: the result synthesized by parse_batch for a raising
task satisfies the invariant. -/
theorem C9_parse_result_invariant_witness : parseResultInvariant synthBatchResult :=
  C9_parse_result_invariant.2 (fun _ => Except.error "boom") ["a.pdf"]
    ParsingStrategy.hiRes (fun _ r h => by cases h) synthBatchResult (by decide)

/-- The successful ParseResult of the batch scenario for one file. -/
def scenarioOk (p : String) : ParseResult :=
  { filePath := p, strategy := ParsingStrategy.fast, text := p ++ " text",
    elements := some [], tokenCount := some 2 }

/-- The batch scenario tasks: file b.pdf raises mid-flight with
description boom, every other file parses. -/
def scenarioTask : String → Except String ParseResult := fun p =>
  if p = "b.pdf" then Except.error "boom" else Except.ok (scenarioOk p)

/-- The result parse_batch synthesizes for the raising slot of the
scenario. -/
def scenarioSynth : ParseResult :=
  { filePath := "b.pdf", strategy := ParsingStrategy.fast, text := "", error := some "boom" }

/-- C6 witness: the three-file batch in which file 2 raises mid-flight
returns three slots in input order; slot 2 carries the non-empty
error and empty text, slots 1 and 3 carry their own correct texts. -/
theorem C6_parse_batch_witness :
    (parseBatch scenarioTask ["a.pdf", "b.pdf", "c.pdf"] ParsingStrategy.fast).length = 3 ∧
    (parseBatch scenarioTask ["a.pdf", "b.pdf", "c.pdf"] ParsingStrategy.fast).get? 0 =
      some (scenarioOk "a.pdf") ∧
    (parseBatch scenarioTask ["a.pdf", "b.pdf", "c.pdf"] ParsingStrategy.fast).get? 1 =
      some scenarioSynth ∧
    (parseBatch scenarioTask ["a.pdf", "b.pdf", "c.pdf"] ParsingStrategy.fast).get? 2 =
      some (scenarioOk "c.pdf") ∧
    scenarioSynth.error = some "boom" ∧ "boom" ≠ "" ∧ scenarioSynth.text = "" := by
  have h := C6_parse_batch scenarioTask ["a.pdf", "b.pdf", "c.pdf"] ParsingStrategy.fast
  refine ⟨h.1, ?_, ?_, ?_, rfl, by decide, rfl⟩
  · exact h.2.2.1 0 "a.pdf" (scenarioOk "a.pdf") rfl rfl
  · exact h.2.2.2 1 "b.pdf" "boom" rfl rfl
  · exact h.2.2.1 2 "c.pdf" (scenarioOk "c.pdf") rfl rfl

/-- Outcome of the nth attempt against an LLM backend: the response
envelope (raw text, the structured value _parse_json_response
recovers from it, token usage, stop reason, elapsed time), a timeout
of asyncio.wait_for, or another raised exception with its
description.  The JSON recovery is carried inside the outcome because
no claim settled against this model depends on its internals. -/
inductive BackendOutcome where
  | success (rawText : String) (data : Option JsonValue)
      (promptTokens completionTokens : Nat) (stopReason : String) (elapsed : ℚ)
  | timeoutFailure (elapsed : ℚ)
  | exnFailure (msg : String) (elapsed : ℚ)

/-- The environment of one extract call: the configured model name,
the configured request timeout, and the outcome each attempt would
produce. -/
structure ExtractorWorld where
  modelName : String
  apiTimeout : ℚ
  backend : Nat → BackendOutcome

/-- Embeds the try/except body of ClaudeExtractor.extract
(extractors.py lines 214-292); OpenAIExtractor.extract (lines
336-413) has the same shape.  The success branch records usage,
cost and elapsed time; the timeout branch and the generic exception
branch return an ExtractionResult with the error description, the
zero token and cost defaults, and the elapsed time from call start to
failure.  Every branch returns: the body never raises. -/
def extractOnce (w : ExtractorWorld) (queryType : Int) (queryName : String)
    (attempt : Nat) : ExtractionResult :=
  match w.backend attempt with
  | .success rawText data promptTokens completionTokens stopReason elapsed =>
    { model := w.modelName
      queryType := queryType
      queryName := queryName
      extractedData := data
      rawResponse := rawText
      promptTokens := promptTokens
      completionTokens := completionTokens
      totalTokens := promptTokens + completionTokens
      extractionTime := elapsed
      costUsd := calculateCost promptTokens completionTokens w.modelName
      metadata := [("stop_reason", stopReason)] }
  | .timeoutFailure elapsed =>
    { model := w.modelName
      queryType := queryType
      queryName := queryName
      extractionTime := elapsed
      error := some ("Timeout after " ++ toString w.apiTimeout ++ "s") }
  | .exnFailure msg elapsed =>
    { model := w.modelName
      queryType := queryType
      queryName := queryName
      extractionTime := elapsed
      error := some msg }

/-- The tenacity retry combinator with stop_after_attempt semantics:
attemptsLeft counts the allowed attempts from the current one; a
raised exception (the error side) is retried while further attempts
remain and reraised once they are exhausted; a returned value passes
through at once.  wait_exponential only delays between attempts and
never changes which attempt produces the outcome, so it carries no
state here. -/
def retryRun {α : Type} : Nat → (Nat → Except String α) → Nat → Except String α
  | 0, body, attemptIdx => body attemptIdx
  | 1, body, attemptIdx => body attemptIdx
  | n + 2, body, attemptIdx =>
    match body attemptIdx with
    | .ok r => .ok r
    | .error _ => retryRun (n + 1) body (attemptIdx + 1)

/-- Embeds the decorated extract of both extractor families
(extractors.py lines 190-292 and 312-413): the retry decorator
(stop_after_attempt(3), exponential backoff, retry on any Exception,
reraise) wraps a body whose try/except has already converted every
timeout and every other exception into an error-bearing
ExtractionResult, so the wrapped body always returns. -/
def extract (w : ExtractorWorld) (queryType : Int) (queryName : String) :
    Except String ExtractionResult :=
  retryRun 3 (fun attempt => Except.ok (extractOnce w queryType queryName attempt)) 0

/-- A backend that times out on the first attempt and would succeed
on every later one. -/
def timeoutWorld : ExtractorWorld :=
  { modelName := "claude-sonnet"
    apiTimeout := 120
    backend := fun attempt =>
      if attempt = 0 then .timeoutFailure 120
      else .success "data" (some exampleData) 10 5 "end_turn" 2 }

/-- C1 (the code at the failing input): the extract body catches every
timeout and exception and returns a terminal ExtractionResult, so the
retry decorator never observes a failure and no retry ever happens —
every call returns the outcome of attempt 0.  Against a backend that
times out on attempt 0 and would succeed on attempt 1, the caller
receives the timeout error result (error set, zero token counts, zero
cost) although the retry promised by the claim would have succeeded;
the caller indeed never observes an unhandled exception. -/
theorem C1_extract_retry_never_fires :
    (∀ (w : ExtractorWorld) (queryType : Int) (queryName : String),
      extract w queryType queryName =
        Except.ok (extractOnce w queryType queryName 0)) ∧
    extract timeoutWorld 1 "Basic" = Except.ok (extractOnce timeoutWorld 1 "Basic" 0) ∧
    (extractOnce timeoutWorld 1 "Basic" 0).error =
      some ("Timeout after " ++ toString (120 : ℚ) ++ "s") ∧
    (extractOnce timeoutWorld 1 "Basic" 0).promptTokens = 0 ∧
    (extractOnce timeoutWorld 1 "Basic" 0).completionTokens = 0 ∧
    (extractOnce timeoutWorld 1 "Basic" 0).totalTokens = 0 ∧
    (extractOnce timeoutWorld 1 "Basic" 0).costUsd = 0 ∧
    (extractOnce timeoutWorld 1 "Basic" 1).error = none :=
  ⟨fun _ _ _ => rfl, rfl, rfl, rfl, rfl, rfl, rfl, rfl⟩

end PdfX
